import Mathlib

/-!
Verification of the Google Sheets grocery-list service
(`googleSheetsService`): a shallow embedding of the credential/token
manager and the record client (list / append / delete / reorder),
with theorems settling the specification claims.

Machine integers do not occur (JS numbers stay small here); times are
modelled as `Int` milliseconds, row indices as `Nat`.  Network calls are
modelled by outcome parameters plus an explicit event trace, so that
"issues exactly one exchange call" and "fails before any network call"
are statable.
-/

namespace Grocery

/-- Whitespace class used by the JS `String.prototype.trim` (the members
relevant to this code base: ASCII whitespace, NBSP, line/paragraph
separators, BOM). -/
def isJsSpace (c : Char) : Bool :=
  c == ' ' || c == '\t' || c == '\n' || c == '\r' ||
  c == '\x0b' || c == '\x0c' || c == '\u00a0' ||
  c == '\u2028' || c == '\u2029' || c == '\ufeff'

/-- `trim` on a character list: strip leading and trailing whitespace. -/
def jsTrimList (l : List Char) : List Char :=
  ((l.dropWhile isJsSpace).reverse.dropWhile isJsSpace).reverse

/-- Model of the JS `s.trim()`. -/
def jsTrim (s : String) : String :=
  ⟨jsTrimList s.data⟩

/-- Model of the JS `s.toLowerCase()` (ASCII case folding, which is all
this code base compares). -/
def jsToLower (s : String) : String :=
  ⟨s.data.map Char.toLower⟩

/-- Decimal digit character for a value below ten. -/
def digitChar (n : Nat) : Char :=
  Char.ofNat (48 + n)

/-- Reference form of the decimal digit list, by well-founded
recursion (used for induction proofs). -/
def natToDigitsRef (n : Nat) : List Char :=
  if _h : n < 10 then [digitChar n]
  else natToDigitsRef (n / 10) ++ [digitChar (n % 10)]
termination_by n
decreasing_by exact Nat.div_lt_self (by omega) (by omega)

/-- Fuel-driven accumulator form of the decimal digit list; structural
recursion, so it evaluates inside the kernel. -/
def natToDigitsCore : Nat → Nat → List Char → List Char
  | 0, _, acc => acc
  | fuel + 1, n, acc =>
    if n < 10 then digitChar (n % 10) :: acc
    else natToDigitsCore fuel (n / 10) (digitChar (n % 10) :: acc)

/-- Decimal digit list of a natural number, most significant first
(the digits JS produces for `${n}` template interpolation). -/
def natToDigits (n : Nat) : List Char :=
  natToDigitsCore (n + 1) n []

/-- Decimal string of a natural number. -/
def natRepr (n : Nat) : String :=
  ⟨natToDigits n⟩

/-- Numeric value of a decimal digit character. -/
def digitVal (c : Char) : Nat :=
  c.toNat - 48

/-- Value of a decimal digit list, most significant first: the model of
`parseInt` applied to the digit capture of the item-id pattern. -/
def digitsToNat (l : List Char) : Nat :=
  l.foldl (fun a c => 10 * a + digitVal c) 0

/-- JS falsiness of an optional string (`!x` is true for an absent
value and for the empty string). -/
def strFalsy : Option String → Bool
  | none => true
  | some s => s == ""

/-- Substring test on character lists (the semantics of
`String.prototype.includes`). -/
def containsSub (hay needle : List Char) : Bool :=
  match hay with
  | [] => needle.isPrefixOf []
  | c :: t => needle.isPrefixOf (c :: t) || containsSub t needle

/-- The standard base64 alphabet, in value order. -/
def base64Alphabet : List Char :=
  "ABCDEFGHIJKLMNOPQRSTUVWXYZabcdefghijklmnopqrstuvwxyz0123456789+/".data

/-- Base64 character for a six-bit value. -/
def b64Char (n : Nat) : Char :=
  (base64Alphabet.get? n).getD 'A'

/-- Standard base64 of a byte list, with `=` padding: the model of the
JS `btoa` applied to a latin-1 string of these byte values. -/
def base64Core : List Nat → List Char
  | [] => []
  | [a] =>
    [b64Char (a / 4), b64Char (a % 4 * 16), '=', '=']
  | [a, b] =>
    [b64Char (a / 4), b64Char (a % 4 * 16 + b / 16), b64Char (b % 16 * 4), '=']
  | a :: b :: c :: rest =>
    b64Char (a / 4) :: b64Char (a % 4 * 16 + b / 16) ::
      b64Char (b % 16 * 4 + c / 64) :: b64Char (c % 64) :: base64Core rest

/-- The two character replacements `+` to `-` and `/` to `_` applied
after padding removal. -/
def b64urlFix (c : Char) : Char :=
  if c == '+' then '-' else if c == '/' then '_' else c

/-- Base64url of a byte list: `btoa` output with `=` stripped, `+`
replaced by `-` and `/` replaced by `_`, exactly the replace chain of
`createJWT`. -/
def base64UrlOfBytes (bs : List Nat) : String :=
  ⟨((base64Core bs).filter (fun c => c != '=')).map b64urlFix⟩

/-- Byte values of a string under `btoa` (code units; the strings fed
to it here are ASCII JSON). -/
def strBytes (s : String) : List Nat :=
  s.data.map Char.toNat

/-- Base64url of a string, `btoa`-style. -/
def base64UrlOfString (s : String) : String :=
  base64UrlOfBytes (strBytes s)

/-- Lowercase hexadecimal digit. -/
def hexDigit (n : Nat) : Char :=
  ("0123456789abcdef".data.get? n).getD '0'

/-- Escape of one character inside a JSON string literal, as
`JSON.stringify` produces it. -/
def jsonEscapeChar (c : Char) : List Char :=
  if c == '"' then ['\\', '"']
  else if c == '\\' then ['\\', '\\']
  else if c == '\x08' then ['\\', 'b']
  else if c == '\t' then ['\\', 't']
  else if c == '\n' then ['\\', 'n']
  else if c == '\x0c' then ['\\', 'f']
  else if c == '\r' then ['\\', 'r']
  else if c.toNat < 32 then
    ['\\', 'u', '0', '0', hexDigit (c.toNat / 16), hexDigit (c.toNat % 16)]
  else [c]

/-- JSON string literal for a string value. -/
def jsonStr (s : String) : String :=
  "\"" ++ ⟨(s.data.map jsonEscapeChar).flatten⟩ ++ "\""

/-- `JSON.stringify` of the fixed JWT header object
`alg RS256, typ JWT` (insertion key order). -/
def jwtHeaderJson : String :=
  "\x7b" ++ jsonStr "alg" ++ ":" ++ jsonStr "RS256" ++ "," ++
    jsonStr "typ" ++ ":" ++ jsonStr "JWT" ++ "\x7d"

/-- The claim set put into the signed assertion by `getAccessToken`. -/
structure JwtPayload where
  iss : String
  scope : String
  aud : String
  exp : Nat
  iat : Nat
deriving Repr, DecidableEq

/-- `JSON.stringify` of the payload object, keys in insertion order
`iss, scope, aud, exp, iat` as the object literal writes them. -/
def jwtPayloadToJson (p : JwtPayload) : String :=
  "\x7b" ++ jsonStr "iss" ++ ":" ++ jsonStr p.iss ++ "," ++
    jsonStr "scope" ++ ":" ++ jsonStr p.scope ++ "," ++
    jsonStr "aud" ++ ":" ++ jsonStr p.aud ++ "," ++
    jsonStr "exp" ++ ":" ++ natRepr p.exp ++ "," ++
    jsonStr "iat" ++ ":" ++ natRepr p.iat ++ "\x7d"

/-- Model of `createJWT`: serialize and base64url-encode header and
payload, sign the dot-joined pair (the RSA-SHA256 PKCS1-v1.5 signing
primitive of WebCrypto is abstracted as the byte-valued function
`sign`), base64url-encode the signature bytes, join all three with
dots. -/
def createJWT (payload : JwtPayload) (sign : String → List Nat) : String :=
  let encodedHeader := base64UrlOfString jwtHeaderJson
  let encodedPayload := base64UrlOfString (jwtPayloadToJson payload)
  let encodedSignature := base64UrlOfBytes (sign (encodedHeader ++ "." ++ encodedPayload))
  encodedHeader ++ "." ++ encodedPayload ++ "." ++ encodedSignature

/-- The fixed OAuth scope URL of the token request. -/
def spreadsheetsScope : String :=
  "https://www.googleapis.com/auth/spreadsheets"

/-- The fixed token-endpoint URL, used as the assertion audience. -/
def tokenEndpoint : String :=
  "https://oauth2.googleapis.com/token"

/-- The assertion built inside `getAccessToken` from the credential
identity and the current epoch second: issuer, the fixed scope, the
fixed audience, expiry one hour ahead, issued-at now. -/
def buildAssertion (email : String) (nowSec : Nat) (sign : String → List Nat) : String :=
  createJWT ⟨email, spreadsheetsScope, tokenEndpoint, nowSec + 3600, nowSec⟩ sign

/-- A grocery record as reconstructed from a sheet row; `quantity` and
`category` are optional in the interface, and `list` always fills them
with (possibly empty) strings. -/
structure GroceryItem where
  id : String
  name : String
  quantity : Option String
  category : Option String
deriving Repr, DecidableEq

/-- The validated service-account credential record. -/
structure ServiceAccountCredentials where
  client_email : String
  private_key : String
  project_id : Option String
deriving Repr, DecidableEq

/-- Parse outcome of the stored credential JSON blob: either
`JSON.parse` throws, or it yields an object whose three relevant
fields may each be absent (or present, possibly empty). -/
inductive CredParse where
  | malformed
  | parsed (client_email private_key project_id : Option String)
deriving Repr, DecidableEq

/-- The token cache: the two private fields of the service object.
`tokenExpiry` is absolute epoch milliseconds. -/
structure TokenState where
  accessToken : Option String
  tokenExpiry : Int
deriving Repr, DecidableEq

/-- Fresh service object: no cached token, expiry zero. -/
def initialTokenState : TokenState :=
  ⟨none, 0⟩

/-- One batch-update write: the fixed column span A..D between two
1-based row numbers, with the cell rows sent. -/
structure WriteData where
  startRow : Nat
  endRow : Nat
  values : List (List String)
deriving Repr, DecidableEq

/-- Network calls an operation performs, in order. -/
inductive Event where
  | tokenExchange
  | sheetsRead
  | sheetsWrite (w : WriteData)
deriving Repr, DecidableEq

/-- Number of token-exchange calls in a trace. -/
def exchCount (evs : List Event) : Nat :=
  (evs.filter (fun e => e == Event.tokenExchange)).length

/-- Whether an event is a sheets write. -/
def isWriteEvent : Event → Bool
  | Event.sheetsWrite _ => true
  | _ => false

/-- What the remote token endpoint answers when called. -/
inductive ExchangeOutcome where
  | httpFailure (status : Nat) (body : String)
  | success (access_token : String) (expires_in : Int)
deriving Repr, DecidableEq

/-- What the sheets read endpoint answers when called. -/
inductive ReadOutcome where
  | httpFailure (status : Nat) (body : String)
  | success (values : Option (List (List String)))
deriving Repr, DecidableEq

/-- What the batch-update endpoint answers when called. -/
inductive WriteOutcome where
  | httpFailure (status : Nat) (body : String)
  | success
deriving Repr, DecidableEq

/-- Model of `getServiceAccountCredentials`: absent blob fails with the
not-configured message; an unparsable blob, or one whose
`client_email` or `private_key` is absent or empty, fails with the
invalid-format message (the missing-field error is itself caught by
the surrounding catch and replaced by that message). -/
def getServiceAccountCredentials (stored : Option CredParse) :
    Except String ServiceAccountCredentials :=
  match stored with
  | none =>
    .error "Service Account credentials not configured. Please add your service account JSON in settings."
  | some CredParse.malformed =>
    .error "Invalid service account credentials format"
  | some (CredParse.parsed e k p) =>
    if strFalsy e || strFalsy k then
      .error "Invalid service account credentials format"
    else
      .ok ⟨e.getD "", k.getD "", p⟩

/-- The wrapper the catch block of `getAccessToken` puts around every
failure message raised inside it. -/
def authWrap (msg : String) : String :=
  "Authentication failed: " ++ msg ++ ". Please check your service account configuration."

/-- Whether a message carries the authentication-failure wrapper. -/
def isAuthWrapped (msg : String) : Bool :=
  "Authentication failed: ".data.isPrefixOf msg.data

/-- The non-cached path of `getAccessToken`: read credentials (a
failure is wrapped, no network call yet), then perform the single
token-exchange call; on a non-ok response wrap the status/body
message, on success cache the token with expiry
now + expires_in * 1000 - 60000. -/
def getAccessTokenGo (st : TokenState) (stored : Option CredParse) (now : Int)
    (exch : ExchangeOutcome) : Except String String × TokenState × List Event :=
  match getServiceAccountCredentials stored with
  | .error e => (.error (authWrap e), st, [])
  | .ok _creds =>
    match exch with
    | ExchangeOutcome.httpFailure status body =>
      (.error (authWrap ("Failed to get OAuth access token: " ++ natRepr status ++ " - " ++ body)),
        st, [Event.tokenExchange])
    | ExchangeOutcome.success tok expIn =>
      (.ok tok, ⟨some tok, now + expIn * 1000 - 60000⟩, [Event.tokenExchange])

/-- Model of `getAccessToken`: return the cached token when it is
truthy and the current time is strictly before the stored expiry,
otherwise run the exchange path. -/
def getAccessToken (st : TokenState) (stored : Option CredParse) (now : Int)
    (exch : ExchangeOutcome) : Except String String × TokenState × List Event :=
  if strFalsy st.accessToken = false ∧ now < st.tokenExpiry then
    (.ok (st.accessToken.getD ""), st, [])
  else
    getAccessTokenGo st stored now exch

/-- Model of `getSheetId`: the stored identifier must be truthy. -/
def getSheetId (stored : Option String) : Except String String :=
  if strFalsy stored then
    .error "Google Sheet ID not configured. Please check settings."
  else
    .ok (stored.getD "")

/-- Model of `getSheetName`: the stored name, defaulting to `Sheet1`
when absent or empty. -/
def getSheetName (stored : Option String) : String :=
  match stored with
  | none => "Sheet1"
  | some s => if s == "" then "Sheet1" else s

/-- Error message raised by `getGroceryItems` for a non-ok read
response: fixed text for 403 and 404, status and body for the rest. -/
def classifyReadError (status : Nat) (body : String) : String :=
  if status == 403 then
    "Access denied. Please ensure your service account has access to the sheet."
  else if status == 404 then
    "Sheet not found. Please check your Sheet ID."
  else
    "HTTP error! status: " ++ natRepr status ++ " - " ++ body

/-- The row-skip condition of the `getGroceryItems` loop: the row is
empty, or its first cell is absent, empty, or trims to empty. -/
def skipRow (row : List String) : Bool :=
  row.length == 0 || strFalsy row[0]? || jsTrim (row[0]?.getD "") == ""

/-- The `getGroceryItems` loop from loop index `i`: skipped rows still
advance the index; a kept row contributes trimmed name, quantity and
category and the id `item_<i>_<name>`; a row whose trimmed name
lowercases to `item` is dropped. -/
def processRows : Nat → List (List String) → List GroceryItem
  | _, [] => []
  | i, row :: rest =>
    if skipRow row then
      processRows (i + 1) rest
    else
      let itemName := jsTrim (row[0]?.getD "")
      let quantity := jsTrim (row[1]?.getD "")
      let category := jsTrim (row[2]?.getD "")
      if itemName != "" && jsToLower itemName != "item" then
        ⟨"item_" ++ natRepr i ++ "_" ++ itemName, itemName, some quantity, some category⟩
          :: processRows (i + 1) rest
      else
        processRows (i + 1) rest

/-- The pure body of `getGroceryItems` on a parsed response: absent or
empty `values`, or a single (header) row, give the empty list; else
the loop runs from index 1 over the rows after the header. -/
def itemsOfValues (values : Option (List (List String))) : List GroceryItem :=
  match values with
  | none => []
  | some vs =>
    if vs.length == 0 then []
    else if vs.length == 1 then []
    else processRows 1 (vs.drop 1)

/-- Model of `getGroceryItems`: resolve the sheet id (before any
network call), obtain a token, perform the read, classify a non-ok
response, otherwise process the rows. -/
def getGroceryItems (sheetId _sheetName : Option String) (st : TokenState)
    (creds : Option CredParse) (now : Int) (exch : ExchangeOutcome)
    (readOut : ReadOutcome) :
    Except String (List GroceryItem) × TokenState × List Event :=
  match getSheetId sheetId with
  | .error e => (.error e, st, [])
  | .ok _ =>
    match getAccessToken st creds now exch with
    | (.error e, st', evs) => (.error e, st', evs)
    | (.ok _tok, st', evs) =>
      match readOut with
      | ReadOutcome.httpFailure status body =>
        (.error (classifyReadError status body), st', evs ++ [Event.sheetsRead])
      | ReadOutcome.success values =>
        (.ok (itemsOfValues values), st', evs ++ [Event.sheetsRead])

/-- The four-cell row written for an item by `append` and `reorder`:
name, quantity or empty, category or empty, and an empty fourth
cell. -/
def rowOfItem (item : GroceryItem) : List String :=
  [item.name, item.quantity.getD "", item.category.getD "", ""]

/-- Model of `addGroceryItem`: token first, then the sheet id for the
write URL, then a read via `getGroceryItems` to count current items,
then one write of the item row at row count + 2. -/
def addGroceryItem (item : GroceryItem) (sheetId _sheetName : Option String)
    (st : TokenState) (creds : Option CredParse) (now : Int)
    (exch : ExchangeOutcome) (readOut : ReadOutcome) (writeOut : WriteOutcome) :
    Except String Unit × TokenState × List Event :=
  match getAccessToken st creds now exch with
  | (.error e, st', evs) => (.error e, st', evs)
  | (.ok _tok, st', evs) =>
    match getSheetId sheetId with
    | .error e => (.error e, st', evs)
    | .ok _ =>
      match getGroceryItems sheetId _sheetName st' creds now exch readOut with
      | (.error e, st2, evs2) => (.error e, st2, evs ++ evs2)
      | (.ok items, st2, evs2) =>
        let nextRow := items.length + 2
        let wd : WriteData := ⟨nextRow, nextRow, [rowOfItem item]⟩
        match writeOut with
        | WriteOutcome.httpFailure status body =>
          (.error ("Failed to add item: " ++ natRepr status ++ " - " ++ body),
            st2, evs ++ evs2 ++ [Event.sheetsWrite wd])
        | WriteOutcome.success =>
          (.ok (), st2, evs ++ evs2 ++ [Event.sheetsWrite wd])

/-- The literal prefix of the item-id pattern (the characters of
`item_`). -/
def itemIdPat : List Char :=
  ['i', 't', 'e', 'm', '_']

/-- One attempted match of the pattern `item_` digits `_` at the head
of the character list: the literal prefix, then a nonempty maximal
digit run whose following character is an underscore (the regex's
greedy digit class cannot give up digits to match `_`, so maximality
is faithful), yielding the parsed digit value. -/
def matchAt (cs : List Char) : Option Nat :=
  if itemIdPat.isPrefixOf cs then
    let rest := cs.drop 5
    let ds := rest.takeWhile Char.isDigit
    if ds.isEmpty then none
    else
      match (rest.drop ds.length).head? with
      | some c => if c == '_' then some (digitsToNat ds) else none
      | none => none
  else none

/-- Leftmost match of the pattern over the whole string, as
`itemId.match` finds it. -/
def findMatch : List Char → Option Nat
  | [] => none
  | c :: cs =>
    match matchAt (c :: cs) with
    | some n => some n
    | none => findMatch cs

/-- Model of `deleteGroceryItem`: an id without a pattern match fails
at once with no network call; otherwise the parsed index plus one is
the target row and the single write blanks its four cells. -/
def deleteGroceryItem (itemId : String) (sheetId _sheetName : Option String)
    (st : TokenState) (creds : Option CredParse) (now : Int)
    (exch : ExchangeOutcome) (writeOut : WriteOutcome) :
    Except String Unit × TokenState × List Event :=
  match findMatch itemId.data with
  | none => (.error "Invalid item ID format", st, [])
  | some n =>
    let rowIndex := n + 1
    match getAccessToken st creds now exch with
    | (.error e, st', evs) => (.error e, st', evs)
    | (.ok _tok, st', evs) =>
      match getSheetId sheetId with
      | .error e => (.error e, st', evs)
      | .ok _ =>
        let wd : WriteData := ⟨rowIndex, rowIndex, [["", "", "", ""]]⟩
        match writeOut with
        | WriteOutcome.httpFailure status body =>
          (.error ("Failed to delete item: " ++ natRepr status ++ " - " ++ body),
            st', evs ++ [Event.sheetsWrite wd])
        | WriteOutcome.success =>
          (.ok (), st', evs ++ [Event.sheetsWrite wd])

/-- Model of `reorderGroceryItems`: one write covering rows 2 through
item count + 1, one four-cell row per item in the given order. -/
def reorderGroceryItems (reorderedItems : List GroceryItem)
    (sheetId _sheetName : Option String) (st : TokenState)
    (creds : Option CredParse) (now : Int) (exch : ExchangeOutcome)
    (writeOut : WriteOutcome) :
    Except String Unit × TokenState × List Event :=
  match getAccessToken st creds now exch with
  | (.error e, st', evs) => (.error e, st', evs)
  | (.ok _tok, st', evs) =>
    match getSheetId sheetId with
    | .error e => (.error e, st', evs)
    | .ok _ =>
      let wd : WriteData := ⟨2, reorderedItems.length + 1, reorderedItems.map rowOfItem⟩
      match writeOut with
      | WriteOutcome.httpFailure status body =>
        (.error ("Failed to reorder items: " ++ natRepr status ++ " - " ++ body),
          st', evs ++ [Event.sheetsWrite wd])
      | WriteOutcome.success =>
        (.ok (), st', evs ++ [Event.sheetsWrite wd])

/-! ### Helper lemmas -/

theorem head?_dropWhile_false (p : Char → Bool) :
    ∀ (l : List Char) (c : Char), (l.dropWhile p).head? = some c → p c = false := by
  intro l
  induction l with
  | nil => intro c h; simp [List.dropWhile] at h
  | cons a t ih =>
    intro c h
    rw [List.dropWhile_cons] at h
    cases hpa : p a with
    | true => rw [hpa] at h; simp at h; exact ih c h
    | false =>
      rw [hpa] at h
      simp at h
      rw [← h]
      exact hpa

theorem dropWhile_cons_true {p : Char → Bool} {a : Char} {t : List Char}
    (h : p a = true) : (a :: t).dropWhile p = t.dropWhile p := by
  rw [List.dropWhile_cons, h]
  simp

theorem dropWhile_cons_false {p : Char → Bool} {a : Char} {t : List Char}
    (h : p a = false) : (a :: t).dropWhile p = a :: t := by
  rw [List.dropWhile_cons, h]
  simp

theorem getLast?_dropWhile_ne_nil (p : Char → Bool) :
    ∀ (l : List Char), l.dropWhile p ≠ [] → (l.dropWhile p).getLast? = l.getLast? := by
  intro l
  induction l with
  | nil => intro h; simp [List.dropWhile] at h
  | cons a t ih =>
    intro h
    cases hpa : p a with
    | false => rw [dropWhile_cons_false hpa]
    | true =>
      rw [dropWhile_cons_true hpa] at h ⊢
      have ht : t ≠ [] := by
        intro he
        rw [he] at h
        simp [List.dropWhile] at h
      cases t with
      | nil => exact absurd rfl ht
      | cons b t2 =>
        rw [List.getLast?_cons_cons]
        exact ih h

theorem jsTrimList_head (l : List Char) (c : Char)
    (h : (jsTrimList l).head? = some c) : isJsSpace c = false := by
  unfold jsTrimList at h
  rw [List.head?_reverse] at h
  have hne : ((l.dropWhile isJsSpace).reverse).dropWhile isJsSpace ≠ [] := by
    intro he
    rw [he] at h
    simp at h
  rw [getLast?_dropWhile_ne_nil _ _ hne, List.getLast?_reverse] at h
  exact head?_dropWhile_false _ _ _ h

theorem jsTrimList_last (l : List Char) (c : Char)
    (h : (jsTrimList l).getLast? = some c) : isJsSpace c = false := by
  unfold jsTrimList at h
  rw [List.getLast?_reverse] at h
  exact head?_dropWhile_false _ _ _ h

theorem digitChar_isDigit (m : Nat) (h : m < 10) : (digitChar m).isDigit = true := by
  interval_cases m <;> decide

theorem digitVal_digitChar (m : Nat) (h : m < 10) : digitVal (digitChar m) = m := by
  interval_cases m <;> decide

theorem natToDigitsCore_eq_ref (n : Nat) :
    ∀ (fuel : Nat) (acc : List Char), n < fuel →
      natToDigitsCore fuel n acc = natToDigitsRef n ++ acc := by
  induction n using Nat.strong_induction_on with
  | _ n ih =>
    intro fuel acc hf
    cases fuel with
    | zero => omega
    | succ f =>
      rw [natToDigitsCore, natToDigitsRef]
      by_cases h : n < 10
      · rw [dif_pos h, if_pos h, Nat.mod_eq_of_lt h]
        rfl
      · rw [dif_neg h, if_neg h]
        rw [ih (n / 10) (Nat.div_lt_self (by omega) (by omega)) f
          (digitChar (n % 10) :: acc) (by omega)]
        simp

theorem natToDigits_eq_ref (n : Nat) : natToDigits n = natToDigitsRef n := by
  rw [natToDigits, natToDigitsCore_eq_ref n (n + 1) [] (by omega)]
  simp

theorem natToDigits_ne_nil (n : Nat) : natToDigits n ≠ [] := by
  rw [natToDigits_eq_ref, natToDigitsRef]
  split <;> simp

theorem mem_natToDigits_isDigit (n : Nat) :
    ∀ c ∈ natToDigits n, c.isDigit = true := by
  rw [natToDigits_eq_ref]
  induction n using Nat.strong_induction_on with
  | _ n ih =>
    rw [natToDigitsRef]
    split
    · next h =>
      intro c hc
      simp at hc
      rw [hc]
      exact digitChar_isDigit n h
    · next h =>
      intro c hc
      rw [List.mem_append] at hc
      cases hc with
      | inl h1 => exact ih (n / 10) (Nat.div_lt_self (by omega) (by omega)) c h1
      | inr h2 =>
        simp at h2
        rw [h2]
        exact digitChar_isDigit _ (Nat.mod_lt _ (by omega))

theorem digitsToNat_append (l : List Char) (d : Char) :
    digitsToNat (l ++ [d]) = 10 * digitsToNat l + digitVal d := by
  unfold digitsToNat
  rw [List.foldl_append]
  rfl

theorem digitsToNat_natToDigits (n : Nat) : digitsToNat (natToDigits n) = n := by
  rw [natToDigits_eq_ref]
  induction n using Nat.strong_induction_on with
  | _ n ih =>
    rw [natToDigitsRef]
    split
    · next h =>
      show digitsToNat ([] ++ [digitChar n]) = n
      rw [digitsToNat_append, digitVal_digitChar n h]
      have h0 : digitsToNat [] = 0 := rfl
      omega
    · next h =>
      rw [digitsToNat_append, ih (n / 10) (Nat.div_lt_self (by omega) (by omega)),
        digitVal_digitChar _ (Nat.mod_lt _ (by omega))]
      omega

theorem takeWhile_append_stop (p : Char → Bool) (x : Char) (hx : p x = false) :
    ∀ (l r : List Char), (∀ c ∈ l, p c = true) →
      (l ++ x :: r).takeWhile p = l := by
  intro l
  induction l with
  | nil => intro r _; simp [List.takeWhile_cons, hx]
  | cons a t ih =>
    intro r hall
    have ha : p a = true := hall a (by simp)
    rw [List.cons_append, List.takeWhile_cons, ha]
    simp only [if_true]
    rw [ih r (fun c hc => hall c (by simp [hc]))]

theorem isPrefixOf_append_self : ∀ (l r : List Char), l.isPrefixOf (l ++ r) = true := by
  intro l
  induction l with
  | nil => intro r; cases r <;> rfl
  | cons a t ih => intro r; simp [List.isPrefixOf, ih]

theorem containsSub_append (needle : List Char) :
    ∀ (pre rest : List Char), needle.isPrefixOf rest = true →
      containsSub (pre ++ rest) needle = true := by
  intro pre
  induction pre with
  | nil =>
    intro rest h
    cases rest with
    | nil => simpa [containsSub] using h
    | cons c t => simp [containsSub, h]
  | cons a t ih =>
    intro rest h
    rw [List.cons_append]
    show (needle.isPrefixOf (a :: (t ++ rest)) || containsSub (t ++ rest) needle) = true
    rw [ih rest h, Bool.or_true]

theorem getAccessToken_events (st : TokenState) (stored : Option CredParse)
    (now : Int) (exch : ExchangeOutcome) :
    (getAccessToken st stored now exch).2.2 = [] ∨
      (getAccessToken st stored now exch).2.2 = [Event.tokenExchange] := by
  unfold getAccessToken
  split
  · left; rfl
  · unfold getAccessTokenGo
    cases h : getServiceAccountCredentials stored with
    | error e => simp
    | ok c => cases exch <;> simp

/-! ### Claim theorems -/

/-- Claim C1: `list` skips row 0 as header; a later row with an absent,
empty or whitespace-only first cell, or whose trimmed first cell
lowercases to `item`, is skipped while its loop index is still
consumed; any other row at loop index `i` yields the record with
trimmed name, second and third cell (or empty), and id
`item_<i>_<name>`.  On the example grid exactly the Milk and Eggs
records are returned, and an empty or header-only grid yields the
empty sequence, not an error. -/
theorem c1_getGroceryItems_rows :
    (itemsOfValues (some [["Item", "Qty", "Cat"], ["Milk", "2", "Dairy"],
        ["", "", ""], ["Eggs", "12", ""]]) =
      [⟨"item_1_Milk", "Milk", some "2", some "Dairy"⟩,
       ⟨"item_3_Eggs", "Eggs", some "12", some ""⟩])
  ∧ itemsOfValues none = []
  ∧ itemsOfValues (some []) = []
  ∧ (∀ hdr : List String, itemsOfValues (some [hdr]) = [])
  ∧ (∀ (hdr : List String) rest, rest ≠ [] →
      itemsOfValues (some (hdr :: rest)) = processRows 1 rest)
  ∧ (∀ i row rest, skipRow row = true →
      processRows i (row :: rest) = processRows (i + 1) rest)
  ∧ (∀ i row rest, skipRow row = false →
      jsToLower (jsTrim (row[0]?.getD "")) = "item" →
      processRows i (row :: rest) = processRows (i + 1) rest)
  ∧ (∀ i row rest, skipRow row = false →
      jsToLower (jsTrim (row[0]?.getD "")) ≠ "item" →
      processRows i (row :: rest) =
        ⟨"item_" ++ natRepr i ++ "_" ++ jsTrim (row[0]?.getD ""),
          jsTrim (row[0]?.getD ""),
          some (jsTrim (row[1]?.getD "")),
          some (jsTrim (row[2]?.getD ""))⟩ :: processRows (i + 1) rest)
  ∧ (∀ (sid sn : Option String) st creds (now : Int) exch tok st' evs values,
      getAccessToken st creds now exch = (.ok tok, st', evs) →
      strFalsy sid = false →
      getGroceryItems sid sn st creds now exch (ReadOutcome.success values) =
        (.ok (itemsOfValues values), st', evs ++ [Event.sheetsRead])) := by
  refine ⟨by decide, rfl, rfl, fun hdr => rfl, ?_, ?_, ?_, ?_, ?_⟩
  · intro hdr rest h
    cases rest with
    | nil => exact absurd rfl h
    | cons b t => rfl
  · intro i row rest h
    simp [processRows, h]
  · intro i row rest h1 h2
    simp [processRows, h1, h2]
  · intro i row rest h1 h2
    have h3 : (jsTrim (row[0]?.getD "") == "") = false := by
      simp only [skipRow, Bool.or_eq_false_iff] at h1
      exact h1.2
    simp [processRows, h1, h2, h3]
    intro he
    rw [he] at h3
    simp at h3
  · intro sid sn st creds now exch tok st' evs values htok hsid
    unfold getGroceryItems getSheetId
    rw [if_neg (by rw [hsid]; simp), htok]

/-- Witness for C1: the produce law applied to a concrete row with
whitespace-padded cells at loop index 5. -/
theorem c1_witness :
    processRows 5 [["Bread", " 2 ", ""]] =
      [⟨"item_5_Bread", "Bread", some "2", some ""⟩] := by
  have h := c1_getGroceryItems_rows.2.2.2.2.2.2.2.1 5 ["Bread", " 2 ", ""] []
    (by decide) (by decide)
  rw [h]
  rfl

/-- Claim C2: `getAccessToken` returns the cached token with no
exchange while the current time is strictly before the stored expiry;
otherwise it performs one exchange and on success stores the token
with expiry now + expires_in * 1000 - 60000; hence two calls within
the cached lifetime perform exactly one exchange, and a later call at
or past expiry performs another. -/
theorem c2_getAccessToken_caching
    (stored : Option CredParse) (c : ServiceAccountCredentials)
    (hc : getServiceAccountCredentials stored = .ok c)
    (tok : String) (expIn : Int) (htok : tok ≠ "") :
    (∀ (st : TokenState) (now : Int),
      strFalsy st.accessToken = false → now < st.tokenExpiry →
      getAccessToken st stored now (ExchangeOutcome.success tok expIn) =
        (.ok (st.accessToken.getD ""), st, []))
  ∧ (∀ (st : TokenState) (now : Int),
      strFalsy st.accessToken = true ∨ st.tokenExpiry ≤ now →
      getAccessToken st stored now (ExchangeOutcome.success tok expIn) =
        (.ok tok, ⟨some tok, now + expIn * 1000 - 60000⟩, [Event.tokenExchange]))
  ∧ (∀ t0 t1 : Int, t1 < t0 + expIn * 1000 - 60000 →
      exchCount (getAccessToken initialTokenState stored t0
          (ExchangeOutcome.success tok expIn)).2.2 +
        exchCount (getAccessToken
          (getAccessToken initialTokenState stored t0
            (ExchangeOutcome.success tok expIn)).2.1 stored t1
          (ExchangeOutcome.success tok expIn)).2.2 = 1)
  ∧ (∀ t0 t2 : Int, t0 + expIn * 1000 - 60000 ≤ t2 →
      exchCount (getAccessToken
        (getAccessToken initialTokenState stored t0
          (ExchangeOutcome.success tok expIn)).2.1 stored t2
        (ExchangeOutcome.success tok expIn)).2.2 = 1) := by
  have hmiss : ∀ (st : TokenState) (now : Int),
      strFalsy st.accessToken = true ∨ st.tokenExpiry ≤ now →
      getAccessToken st stored now (ExchangeOutcome.success tok expIn) =
        (.ok tok, ⟨some tok, now + expIn * 1000 - 60000⟩, [Event.tokenExchange]) := by
    intro st now h
    unfold getAccessToken
    rw [if_neg]
    · simp [getAccessTokenGo, hc]
    · rintro ⟨h1, h2⟩
      cases h with
      | inl hl => rw [hl] at h1; exact absurd h1 (by simp)
      | inr hr => omega
  have hfirst := hmiss initialTokenState
  have hsome : strFalsy (some tok) = false := by
    simp [strFalsy]
    exact htok
  refine ⟨?_, hmiss, ?_, ?_⟩
  · intro st now h1 h2
    unfold getAccessToken
    rw [if_pos ⟨h1, h2⟩]
  · intro t0 t1 h
    rw [hfirst t0 (Or.inl rfl)]
    have hhit : getAccessToken (⟨some tok, t0 + expIn * 1000 - 60000⟩ : TokenState)
        stored t1 (ExchangeOutcome.success tok expIn) =
        (.ok ((some tok).getD ""), ⟨some tok, t0 + expIn * 1000 - 60000⟩, []) := by
      unfold getAccessToken
      rw [if_pos ⟨hsome, h⟩]
    rw [hhit]
    rfl
  · intro t0 t2 h
    rw [hfirst t0 (Or.inl rfl)]
    rw [hmiss ⟨some tok, t0 + expIn * 1000 - 60000⟩ t2 (Or.inr h)]
    rfl

/-- Witness for C2: concrete credentials, a first exchange at time 0
with a one-hour lifetime, a cache hit one second later. -/
theorem c2_witness :
    exchCount (getAccessToken initialTokenState
        (some (CredParse.parsed (some "e@x.y") (some "k") none)) 0
        (ExchangeOutcome.success "tok9" 3600)).2.2 +
      exchCount (getAccessToken
        (getAccessToken initialTokenState
          (some (CredParse.parsed (some "e@x.y") (some "k") none)) 0
          (ExchangeOutcome.success "tok9" 3600)).2.1
        (some (CredParse.parsed (some "e@x.y") (some "k") none)) 1000
        (ExchangeOutcome.success "tok9" 3600)).2.2 = 1 :=
  (c2_getAccessToken_caching
    (some (CredParse.parsed (some "e@x.y") (some "k") none))
    ⟨"e@x.y", "k", none⟩ rfl "tok9" 3600 (by decide)).2.2.1
    0 1000 (by decide)

theorem isPrefixOf_self (l : List Char) : l.isPrefixOf l = true := by
  have h := isPrefixOf_append_self l []
  rw [List.append_nil] at h
  exact h

/-- Claim C3 (amended): a non-ok read response raises the
access-denied message on 403, the sheet-not-found message on 404, and
otherwise a message carrying the original status and body; only the
generic case retains the status code and body text — the 403 and 404
messages are fixed strings. -/
theorem c3_read_error_mapping (status : Nat) (body : String) :
    (∀ (sid sn : Option String) st creds (now : Int) exch tok st' evs,
      getAccessToken st creds now exch = (.ok tok, st', evs) →
      strFalsy sid = false →
      getGroceryItems sid sn st creds now exch (ReadOutcome.httpFailure status body) =
        (.error (classifyReadError status body), st', evs ++ [Event.sheetsRead]))
  ∧ classifyReadError 403 body =
      "Access denied. Please ensure your service account has access to the sheet."
  ∧ classifyReadError 404 body =
      "Sheet not found. Please check your Sheet ID."
  ∧ (status ≠ 403 → status ≠ 404 →
      classifyReadError status body =
          "HTTP error! status: " ++ natRepr status ++ " - " ++ body
        ∧ containsSub (classifyReadError status body).data (natRepr status).data = true
        ∧ containsSub (classifyReadError status body).data body.data = true) := by
  refine ⟨?_, rfl, rfl, ?_⟩
  · intro sid sn st creds now exch tok st' evs htok hsid
    unfold getGroceryItems getSheetId
    rw [if_neg (by rw [hsid]; simp), htok]
  · intro h1 h2
    have e1 : (status == 403) = false := by simp [h1]
    have e2 : (status == 404) = false := by simp [h2]
    have hmsg : classifyReadError status body =
        "HTTP error! status: " ++ natRepr status ++ " - " ++ body := by
      simp [classifyReadError, e1, e2]
    refine ⟨hmsg, ?_, ?_⟩
    · rw [hmsg]
      have hd : ("HTTP error! status: " ++ natRepr status ++ " - " ++ body).data =
          "HTTP error! status: ".data ++
            ((natRepr status).data ++ (" - ".data ++ body.data)) := by
        simp [String.data_append]
      rw [hd]
      exact containsSub_append _ _ _ (isPrefixOf_append_self _ _)
    · rw [hmsg]
      have hd : ("HTTP error! status: " ++ natRepr status ++ " - " ++ body).data =
          ("HTTP error! status: ".data ++ (natRepr status).data ++ " - ".data) ++
            body.data := by
        simp [String.data_append]
      rw [hd]
      exact containsSub_append _ _ _ (isPrefixOf_self _)

/-- Witness for C3: the generic branch at status 500 carries the
status and the body. -/
theorem c3_witness :
    classifyReadError 500 "oops" = "HTTP error! status: 500 - oops"
  ∧ containsSub (classifyReadError 500 "oops").data (natRepr 500).data = true
  ∧ containsSub (classifyReadError 500 "oops").data "oops".data = true :=
  c3_read_error_mapping 500 "oops" |>.2.2.2 (by decide) (by decide)

/-- Counterexample for C3: at status 403 the raised message is a fixed
text containing neither the status code nor the response body, so the
error does not retain them. -/
theorem c3_counterexample :
    classifyReadError 403 "b0dy123" =
      "Access denied. Please ensure your service account has access to the sheet."
  ∧ containsSub (classifyReadError 403 "b0dy123").data (natRepr 403).data = false
  ∧ containsSub (classifyReadError 403 "b0dy123").data "b0dy123".data = false :=
  ⟨rfl, by decide, by decide⟩

/-- Claim C4: `delete` on an id without an `item_<digits>_` match
fails with the invalid-format error and performs no call; on an id
whose first match parses to `n` it performs exactly one write,
blanking the four cells of row `n + 1` and touching no other row;
`item_3_Eggs` targets row 4. -/
theorem c4_deleteGroceryItem (itemId : String) :
    (findMatch itemId.data = none →
      ∀ (sid sn : Option String) st creds (now : Int) exch w,
        deleteGroceryItem itemId sid sn st creds now exch w =
          (.error "Invalid item ID format", st, []))
  ∧ (∀ n, findMatch itemId.data = some n →
      ∀ (sid sn : Option String) st creds (now : Int) exch tok st' evs,
        getAccessToken st creds now exch = (.ok tok, st', evs) →
        strFalsy sid = false →
        deleteGroceryItem itemId sid sn st creds now exch WriteOutcome.success =
          (.ok (), st',
            evs ++ [Event.sheetsWrite ⟨n + 1, n + 1, [["", "", "", ""]]⟩]))
  ∧ findMatch "item_3_Eggs".data = some 3 := by
  refine ⟨?_, ?_, by decide⟩
  · intro h sid sn st creds now exch w
    simp [deleteGroceryItem, h]
  · intro n h sid sn st creds now exch tok st' evs htok hsid
    unfold deleteGroceryItem getSheetId
    rw [h, htok, if_neg (by rw [hsid]; simp)]

/-- Witness for C4: deleting `item_3_Eggs` in a configured
environment issues one exchange and one write blanking row 4. -/
theorem c4_witness :
    deleteGroceryItem "item_3_Eggs" (some "sid") none initialTokenState
      (some (CredParse.parsed (some "e") (some "k") none)) 0
      (ExchangeOutcome.success "t" 3600) WriteOutcome.success =
    (.ok (), ⟨some "t", 3540000⟩,
      [Event.tokenExchange, Event.sheetsWrite ⟨4, 4, [["", "", "", ""]]⟩]) := by
  have h := (c4_deleteGroceryItem "item_3_Eggs").2.1 3 (by decide)
    (some "sid") none initialTokenState
    (some (CredParse.parsed (some "e") (some "k") none)) 0
    (ExchangeOutcome.success "t" 3600) "t" ⟨some "t", 3540000⟩
    [Event.tokenExchange] rfl rfl
  rw [h]
  rfl

/-- Claim C5 (amended): `getAccessToken` fails for an absent or
structurally invalid credential record without any exchange call, and
for a non-ok exchange response after exactly one exchange call; in
both cases the failure message carries the same
`Authentication failed:` wrapper (the catch block wraps every inner
message), so the two kinds are distinguishable only through the inner
message text, not as distinct kinds. -/
theorem c5_error_kinds :
    (∀ (now : Int) exch,
      getAccessToken initialTokenState none now exch =
        (.error (authWrap "Service Account credentials not configured. Please add your service account JSON in settings."),
          initialTokenState, []))
  ∧ (∀ (now : Int) exch,
      getAccessToken initialTokenState (some CredParse.malformed) now exch =
        (.error (authWrap "Invalid service account credentials format"),
          initialTokenState, []))
  ∧ (∀ (e k p : Option String), (strFalsy e || strFalsy k) = true →
      ∀ (now : Int) exch,
      getAccessToken initialTokenState (some (CredParse.parsed e k p)) now exch =
        (.error (authWrap "Invalid service account credentials format"),
          initialTokenState, []))
  ∧ (∀ stored c, getServiceAccountCredentials stored = .ok c →
      ∀ (now : Int) (s : Nat) (b : String),
      getAccessToken initialTokenState stored now (ExchangeOutcome.httpFailure s b) =
        (.error (authWrap ("Failed to get OAuth access token: " ++ natRepr s ++ " - " ++ b)),
          initialTokenState, [Event.tokenExchange]))
  ∧ (∀ m, isAuthWrapped (authWrap m) = true) := by
  have hnc : ¬(strFalsy (initialTokenState.accessToken) = false ∧
      (0 : Int) < initialTokenState.tokenExpiry) := by
    rintro ⟨h1, -⟩
    simp [initialTokenState, strFalsy] at h1
  refine ⟨?_, ?_, ?_, ?_, ?_⟩
  · intro now exch
    unfold getAccessToken
    rw [if_neg (by rintro ⟨h1, -⟩; simp [initialTokenState, strFalsy] at h1)]
    rfl
  · intro now exch
    unfold getAccessToken
    rw [if_neg (by rintro ⟨h1, -⟩; simp [initialTokenState, strFalsy] at h1)]
    rfl
  · intro e k p hek now exch
    unfold getAccessToken
    rw [if_neg (by rintro ⟨h1, -⟩; simp [initialTokenState, strFalsy] at h1)]
    simp [getAccessTokenGo, getServiceAccountCredentials, hek]
  · intro stored c hc now s b
    unfold getAccessToken
    rw [if_neg (by rintro ⟨h1, -⟩; simp [initialTokenState, strFalsy] at h1)]
    unfold getAccessTokenGo
    rw [hc]
  · intro m
    unfold isAuthWrapped authWrap
    have hd : ("Authentication failed: " ++ m ++
        ". Please check your service account configuration.").data =
        "Authentication failed: ".data ++
          (m.data ++ ". Please check your service account configuration.".data) := by
      simp [String.data_append]
    rw [hd]
    exact isPrefixOf_append_self _ _

/-- Witness for C5: a present but empty principal identity fails as a
configuration problem, wrapped, with no exchange call. -/
theorem c5_witness :
    getAccessToken initialTokenState
      (some (CredParse.parsed (some "") (some "k") none)) 5
      (ExchangeOutcome.success "t" 60) =
    (.error (authWrap "Invalid service account credentials format"),
      initialTokenState, []) :=
  c5_error_kinds.2.2.1 (some "") (some "k") none (by decide) 5
    (ExchangeOutcome.success "t" 60)

/-- Counterexample for C5: with no stored credential record at all,
the reported failure already carries the authentication-failure
wrapper although zero exchange calls were made, so a configuration
failure is not reported as a kind distinct from an authentication
failure. -/
theorem c5_counterexample :
    (getAccessToken initialTokenState none 0 (ExchangeOutcome.success "t" 3600)).1 =
      .error (authWrap "Service Account credentials not configured. Please add your service account JSON in settings.")
  ∧ isAuthWrapped (authWrap "Service Account credentials not configured. Please add your service account JSON in settings.") = true
  ∧ exchCount (getAccessToken initialTokenState none 0
      (ExchangeOutcome.success "t" 3600)).2.2 = 0 :=
  ⟨rfl, by decide, rfl⟩

/-- Claim C6: the assertion is three dot-joined parts — the base64url
(btoa with `=` stripped, `+` to `-`, `/` to `_`) of the compact JSON
header declaring RS256/JWT, of the compact JSON payload, and of the
signature bytes computed by the RSA-SHA256 signing primitive over
header.payload; the exchange builds the payload with issuer, the
fixed spreadsheets scope, the fixed token-endpoint audience,
iat = now and exp = now + 3600; no encoded part contains `=`, `+` or
`/`. -/
theorem c6_createJWT (p : JwtPayload) (sign : String → List Nat) :
    createJWT p sign =
        base64UrlOfString jwtHeaderJson ++ "." ++
        base64UrlOfString (jwtPayloadToJson p) ++ "." ++
        base64UrlOfBytes (sign (base64UrlOfString jwtHeaderJson ++ "." ++
          base64UrlOfString (jwtPayloadToJson p)))
  ∧ jwtHeaderJson = "\x7b\"alg\":\"RS256\",\"typ\":\"JWT\"\x7d"
  ∧ base64UrlOfString jwtHeaderJson = "eyJhbGciOiJSUzI1NiIsInR5cCI6IkpXVCJ9"
  ∧ (∀ email nowSec, buildAssertion email nowSec sign =
      createJWT ⟨email, spreadsheetsScope, tokenEndpoint, nowSec + 3600, nowSec⟩ sign)
  ∧ (∀ bs : List Nat, ∀ c ∈ (base64UrlOfBytes bs).data,
      c ≠ '=' ∧ c ≠ '+' ∧ c ≠ '/') := by
  refine ⟨rfl, rfl, by decide, fun email nowSec => rfl, ?_⟩
  intro bs c hc
  have hc2 : c ∈ ((base64Core bs).filter (fun x => x != '=')).map b64urlFix := hc
  rw [List.mem_map] at hc2
  obtain ⟨d, hd, hcd⟩ := hc2
  rw [List.mem_filter] at hd
  have hdne : d ≠ '=' := by
    intro he
    rw [he] at hd
    simp at hd
  rw [← hcd]
  unfold b64urlFix
  by_cases h1 : d == '+'
  · rw [if_pos h1]
    refine ⟨by decide, by decide, by decide⟩
  · rw [if_neg h1]
    by_cases h2 : d == '/'
    · rw [if_pos h2]
      refine ⟨by decide, by decide, by decide⟩
    · rw [if_neg h2]
      refine ⟨hdne, ?_, ?_⟩
      · intro he
        rw [he] at h1
        exact h1 rfl
      · intro he
        rw [he] at h2
        exact h2 rfl

set_option maxRecDepth 4096 in
/-- Witness for C6: a concrete assertion with a three-byte signature,
and the url-safety of the `_` produced for an all-ones byte group. -/
theorem c6_witness :
    (('_' : Char) ≠ '=' ∧ ('_' : Char) ≠ '+' ∧ ('_' : Char) ≠ '/')
  ∧ createJWT ⟨"a@b.c", spreadsheetsScope, tokenEndpoint, 3600, 0⟩
      (fun _ => [1, 2, 3]) =
    "eyJhbGciOiJSUzI1NiIsInR5cCI6IkpXVCJ9." ++
      "eyJpc3MiOiJhQGIuYyIsInNjb3BlIjoiaHR0cHM6Ly93d3cuZ29vZ2xlYXBpcy5jb20vYXV0aC9zcHJlYWRzaGVldHMiLCJhdWQiOiJodHRwczovL29hdXRoMi5nb29nbGVhcGlzLmNvbS90b2tlbiIsImV4cCI6MzYwMCwiaWF0IjowfQ" ++
      ".AQID" := by
  constructor
  · exact (c6_createJWT ⟨"a@b.c", spreadsheetsScope, tokenEndpoint, 3600, 0⟩
      (fun _ => [1, 2, 3])).2.2.2.2 [255, 255, 255] '_' (by decide)
  · rw [(c6_createJWT ⟨"a@b.c", spreadsheetsScope, tokenEndpoint, 3600, 0⟩
      (fun _ => [1, 2, 3])).1]
    rfl

/-- Claim C7 (amended): `list` checks the sheet identifier before any
network call and fails with the configuration message and an empty
trace when it is absent or empty; `append`, `delete` (on a
well-formed id) and `reorder` also fail with that message without any
sheets read or write, but they acquire the access token first, so a
token-exchange network call may already have been issued; the range
name always resolves, defaulting to `Sheet1`. -/
theorem c7_config_checks :
    (∀ (sid sn : Option String) st creds (now : Int) exch readOut,
      strFalsy sid = true →
      getGroceryItems sid sn st creds now exch readOut =
        (.error "Google Sheet ID not configured. Please check settings.", st, []))
  ∧ (∀ (sid sn : Option String) item st creds (now : Int) exch readOut writeOut tok st' evs,
      strFalsy sid = true →
      getAccessToken st creds now exch = (.ok tok, st', evs) →
      addGroceryItem item sid sn st creds now exch readOut writeOut =
          (.error "Google Sheet ID not configured. Please check settings.", st', evs)
        ∧ ∀ e ∈ evs, e = Event.tokenExchange)
  ∧ (∀ itemId n (sid sn : Option String) st creds (now : Int) exch writeOut tok st' evs,
      findMatch itemId.data = some n →
      strFalsy sid = true →
      getAccessToken st creds now exch = (.ok tok, st', evs) →
      deleteGroceryItem itemId sid sn st creds now exch writeOut =
          (.error "Google Sheet ID not configured. Please check settings.", st', evs)
        ∧ ∀ e ∈ evs, e = Event.tokenExchange)
  ∧ (∀ items (sid sn : Option String) st creds (now : Int) exch writeOut tok st' evs,
      strFalsy sid = true →
      getAccessToken st creds now exch = (.ok tok, st', evs) →
      reorderGroceryItems items sid sn st creds now exch writeOut =
          (.error "Google Sheet ID not configured. Please check settings.", st', evs)
        ∧ ∀ e ∈ evs, e = Event.tokenExchange)
  ∧ (getSheetName none = "Sheet1" ∧ getSheetName (some "") = "Sheet1"
      ∧ ∀ s : String, s ≠ "" → getSheetName (some s) = s) := by
  have hevs : ∀ st creds (now : Int) exch tok st' evs,
      getAccessToken st creds now exch = (Except.ok tok, st', evs) →
      ∀ e ∈ evs, e = Event.tokenExchange := by
    intro st creds now exch tok st' evs htok e he
    have h2 := getAccessToken_events st creds now exch
    rw [htok] at h2
    simp at h2
    cases h2 with
    | inl h3 => rw [h3] at he; simp at he
    | inr h3 =>
      rw [h3] at he
      simp at he
      exact he
  refine ⟨?_, ?_, ?_, ?_, rfl, rfl, ?_⟩
  · intro sid sn st creds now exch readOut hsid
    unfold getGroceryItems getSheetId
    rw [if_pos hsid]
  · intro sid sn item st creds now exch readOut writeOut tok st' evs hsid htok
    refine ⟨?_, hevs st creds now exch tok st' evs htok⟩
    unfold addGroceryItem getSheetId
    rw [htok, if_pos hsid]
  · intro itemId n sid sn st creds now exch writeOut tok st' evs hm hsid htok
    refine ⟨?_, hevs st creds now exch tok st' evs htok⟩
    unfold deleteGroceryItem getSheetId
    rw [hm, htok, if_pos hsid]
  · intro items sid sn st creds now exch writeOut tok st' evs hsid htok
    refine ⟨?_, hevs st creds now exch tok st' evs htok⟩
    unfold reorderGroceryItems getSheetId
    rw [htok, if_pos hsid]
  · intro s hs
    simp [getSheetName, hs]

/-- Witness for C7: a missing identifier makes `list` fail with an
empty network trace. -/
theorem c7_witness :
    getGroceryItems none none initialTokenState
      (some (CredParse.parsed (some "e") (some "k") none)) 0
      (ExchangeOutcome.success "t" 3600) (ReadOutcome.success none) =
    (.error "Google Sheet ID not configured. Please check settings.",
      initialTokenState, []) :=
  c7_config_checks.1 none none initialTokenState
    (some (CredParse.parsed (some "e") (some "k") none)) 0
    (ExchangeOutcome.success "t" 3600) (ReadOutcome.success none) rfl

/-- Counterexample for C7: with a missing sheet identifier but valid
credentials and empty cache, `append` issues the token-exchange
network call and only then fails on the identifier check, so the
operation does not fail before every network call. -/
theorem c7_counterexample :
    addGroceryItem ⟨"i", "Bread", none, none⟩ none none initialTokenState
      (some (CredParse.parsed (some "e") (some "k") none)) 0
      (ExchangeOutcome.success "t" 3600) (ReadOutcome.success none)
      WriteOutcome.success =
    (.error "Google Sheet ID not configured. Please check settings.",
      ⟨some "t", 3540000⟩, [Event.tokenExchange])
  ∧ exchCount [Event.tokenExchange] = 1 :=
  ⟨rfl, rfl⟩

/-- Claim C8: `reorder` of n ≥ 1 items issues exactly one write,
covering rows 2 through n + 1 with one four-cell row
(name, quantity or empty, category or empty, empty) per item in the
supplied order, and no row beyond n + 1 is written, so stale trailing
rows remain. -/
theorem c8_reorderGroceryItems (items : List GroceryItem)
    (hn : 1 ≤ items.length) :
    ∀ (sid sn : Option String) st creds (now : Int) exch tok st' evs,
      getAccessToken st creds now exch = (.ok tok, st', evs) →
      strFalsy sid = false →
      reorderGroceryItems items sid sn st creds now exch WriteOutcome.success =
          (.ok (), st',
            evs ++ [Event.sheetsWrite ⟨2, items.length + 1, items.map rowOfItem⟩])
        ∧ (items.map rowOfItem).length = items.length
        ∧ items.length + 1 - 2 + 1 = items.length
        ∧ (evs ++ [Event.sheetsWrite ⟨2, items.length + 1, items.map rowOfItem⟩]).filter
            isWriteEvent =
          [Event.sheetsWrite ⟨2, items.length + 1, items.map rowOfItem⟩] := by
  intro sid sn st creds now exch tok st' evs htok hsid
  have hevs := getAccessToken_events st creds now exch
  rw [htok] at hevs
  simp at hevs
  refine ⟨?_, List.length_map _ _, by omega, ?_⟩
  · unfold reorderGroceryItems getSheetId
    rw [htok, if_neg (by rw [hsid]; simp)]
  · rw [List.filter_append]
    have h1 : evs.filter isWriteEvent = [] := by
      cases hevs with
      | inl h => rw [h]; rfl
      | inr h => rw [h]; rfl
    rw [h1]
    rfl

/-- Witness for C8: reordering two concrete items writes rows 2 and 3
in order, as the single write of the trace. -/
theorem c8_witness :
    reorderGroceryItems [⟨"a", "A", some "1", none⟩, ⟨"b", "B", none, some "x"⟩]
      (some "sid") none initialTokenState
      (some (CredParse.parsed (some "e") (some "k") none)) 0
      (ExchangeOutcome.success "t" 3600) WriteOutcome.success =
    (.ok (), ⟨some "t", 3540000⟩,
      [Event.tokenExchange,
        Event.sheetsWrite ⟨2, 3, [["A", "1", "", ""], ["B", "", "x", ""]]⟩]) := by
  have h := (c8_reorderGroceryItems
    [⟨"a", "A", some "1", none⟩, ⟨"b", "B", none, some "x"⟩] (by decide)
    (some "sid") none initialTokenState
    (some (CredParse.parsed (some "e") (some "k") none)) 0
    (ExchangeOutcome.success "t" 3600) "t" ⟨some "t", 3540000⟩
    [Event.tokenExchange] rfl rfl).1
  rw [h]
  rfl

theorem natToDigits_isEmpty_false (n : Nat) : (natToDigits n).isEmpty = false := by
  cases h : natToDigits n with
  | nil => exact absurd h (natToDigits_ne_nil n)
  | cons a t => rfl

theorem matchAt_of_shape (i : Nat) (s : List Char) :
    matchAt (itemIdPat ++ (natToDigits i ++ '_' :: s)) = some i := by
  simp only [matchAt]
  rw [isPrefixOf_append_self, if_pos rfl]
  have hdrop : (itemIdPat ++ (natToDigits i ++ '_' :: s)).drop 5 =
      natToDigits i ++ '_' :: s := by
    have h5 : itemIdPat.length = 5 := rfl
    rw [← h5, List.drop_left]
  rw [hdrop]
  have htake : (natToDigits i ++ '_' :: s).takeWhile Char.isDigit = natToDigits i :=
    takeWhile_append_stop Char.isDigit '_' (by decide) (natToDigits i) s
      (mem_natToDigits_isDigit i)
  rw [htake]
  rw [if_neg (by rw [natToDigits_isEmpty_false i]; simp)]
  rw [List.drop_left]
  simp [digitsToNat_natToDigits i]

theorem findMatch_cons_some (c : Char) (cs : List Char) (n : Nat)
    (h : matchAt (c :: cs) = some n) : findMatch (c :: cs) = some n := by
  unfold findMatch
  rw [h]

theorem itemId_data_shape (j : Nat) (s : String) :
    ("item_" ++ natRepr j ++ "_" ++ s).data =
      itemIdPat ++ (natToDigits j ++ '_' :: s.data) := by
  have h1 : (natRepr j).data = natToDigits j := rfl
  have h2 : "_".data = ['_'] := rfl
  have h3 : "item_".data = itemIdPat := rfl
  simp only [String.data_append, h1, h2, h3]
  simp [List.append_assoc]
  rfl

theorem processRows_skip (i : Nat) (row : List String)
    (rest : List (List String)) (h : skipRow row = true) :
    processRows i (row :: rest) = processRows (i + 1) rest := by
  simp [processRows, h]

theorem processRows_dup (i : Nat) (row : List String)
    (rest : List (List String)) (h1 : skipRow row = false)
    (h2 : jsToLower (jsTrim (row[0]?.getD "")) = "item") :
    processRows i (row :: rest) = processRows (i + 1) rest := by
  simp [processRows, h1, h2]

theorem processRows_keep (i : Nat) (row : List String)
    (rest : List (List String)) (h1 : skipRow row = false)
    (h2 : jsToLower (jsTrim (row[0]?.getD "")) ≠ "item") :
    processRows i (row :: rest) =
      ⟨"item_" ++ natRepr i ++ "_" ++ jsTrim (row[0]?.getD ""),
        jsTrim (row[0]?.getD ""), some (jsTrim (row[1]?.getD "")),
        some (jsTrim (row[2]?.getD ""))⟩ :: processRows (i + 1) rest := by
  have h3 : (jsTrim (row[0]?.getD "") == "") = false := by
    simp only [skipRow, Bool.or_eq_false_iff] at h1
    exact h1.2
  simp [processRows, h1, h2, h3]
  intro he
  rw [he] at h3
  simp at h3

theorem mem_itemsOfValues_processRows (values : Option (List (List String)))
    (item : GroceryItem) (h : item ∈ itemsOfValues values) :
    ∃ vs : List (List String), item ∈ processRows 1 vs := by
  cases values with
  | none => simp [itemsOfValues] at h
  | some vs =>
    refine ⟨vs.drop 1, ?_⟩
    simp only [itemsOfValues] at h
    by_cases h0 : (vs.length == 0) = true
    · rw [if_pos h0] at h
      simp at h
    · rw [if_neg h0] at h
      by_cases h1 : (vs.length == 1) = true
      · rw [if_pos h1] at h
        simp at h
      · rw [if_neg h1] at h
        exact h

theorem mem_processRows_shape :
    ∀ (vs : List (List String)) (i : Nat) (item : GroceryItem),
      item ∈ processRows i vs →
      ∃ j, i ≤ j ∧ item.id = "item_" ++ natRepr j ++ "_" ++ item.name := by
  intro vs
  induction vs with
  | nil =>
    intro i item h
    simp [processRows] at h
  | cons row rest ih =>
    intro i item h
    cases hs : skipRow row with
    | true =>
      rw [processRows_skip i row rest hs] at h
      obtain ⟨j, hj, he⟩ := ih (i + 1) item h
      exact ⟨j, by omega, he⟩
    | false =>
      by_cases hg : jsToLower (jsTrim (row[0]?.getD "")) = "item"
      · rw [processRows_dup i row rest hs hg] at h
        obtain ⟨j, hj, he⟩ := ih (i + 1) item h
        exact ⟨j, by omega, he⟩
      · rw [processRows_keep i row rest hs hg] at h
        rw [List.mem_cons] at h
        cases h with
        | inl he =>
          refine ⟨i, le_refl i, ?_⟩
          rw [he]
        | inr hm =>
          obtain ⟨j, hj, he⟩ := ih (i + 1) item hm
          exact ⟨j, by omega, he⟩

theorem mem_processRows_fields :
    ∀ (vs : List (List String)) (i : Nat) (item : GroceryItem),
      item ∈ processRows i vs →
      ∃ x y z : String,
        item.name = jsTrim x ∧ item.quantity = some (jsTrim y)
        ∧ item.category = some (jsTrim z)
        ∧ item.name ≠ "" ∧ jsToLower item.name ≠ "item" := by
  intro vs
  induction vs with
  | nil =>
    intro i item h
    simp [processRows] at h
  | cons row rest ih =>
    intro i item h
    cases hs : skipRow row with
    | true =>
      rw [processRows_skip i row rest hs] at h
      exact ih (i + 1) item h
    | false =>
      by_cases hg : jsToLower (jsTrim (row[0]?.getD "")) = "item"
      · rw [processRows_dup i row rest hs hg] at h
        exact ih (i + 1) item h
      · rw [processRows_keep i row rest hs hg] at h
        rw [List.mem_cons] at h
        cases h with
        | inl he =>
          have hq : (jsTrim (row[0]?.getD "") == "") = false := by
            simp only [skipRow, Bool.or_eq_false_iff] at hs
            exact hs.2
          refine ⟨row[0]?.getD "", row[1]?.getD "", row[2]?.getD "",
            ?_, ?_, ?_, ?_, ?_⟩
          · rw [he]
          · rw [he]
          · rw [he]
          · rw [he]
            show jsTrim (row[0]?.getD "") ≠ ""
            intro hEq
            rw [hEq] at hq
            simp at hq
          · rw [he]
            exact hg
        | inr hm =>
          exact ih (i + 1) item hm

/-- Claim C9: for every loop index i and every name s — names with
digits or underscores included — the id `item_<i>_<s>` is accepted by
the delete pattern and its first match recovers exactly i; every
record list() returns carries such an id with i at least 1, so delete
addresses row i + 1. -/
theorem c9_id_roundtrip :
    (∀ (i : Nat) (s : String),
      findMatch ("item_" ++ natRepr i ++ "_" ++ s).data = some i)
  ∧ (∀ values item, item ∈ itemsOfValues values →
      ∃ j, 1 ≤ j ∧ item.id = "item_" ++ natRepr j ++ "_" ++ item.name
        ∧ findMatch item.id.data = some j) := by
  have hfm : ∀ (i : Nat) (s : String),
      findMatch ("item_" ++ natRepr i ++ "_" ++ s).data = some i := by
    intro i s
    rw [itemId_data_shape]
    exact findMatch_cons_some 'i'
      ('t' :: 'e' :: 'm' :: '_' :: (natToDigits i ++ '_' :: s.data)) i
      (matchAt_of_shape i s.data)
  refine ⟨hfm, ?_⟩
  intro values item h
  obtain ⟨vs, hm⟩ := mem_itemsOfValues_processRows values item h
  obtain ⟨j, hj, hid⟩ := mem_processRows_shape vs 1 item hm
  refine ⟨j, hj, hid, ?_⟩
  rw [hid]
  exact hfm j item.name

/-- Witness for C9: a listed record whose name contains both a digit
and an underscore still round-trips to its row index. -/
theorem c9_witness :
    ∃ j, 1 ≤ j ∧ ("item_1_Mil_k7" : String) = "item_" ++ natRepr j ++ "_" ++ "Mil_k7"
      ∧ findMatch "item_1_Mil_k7".data = some j :=
  c9_id_roundtrip.2 (some [["h"], ["Mil_k7"]])
    ⟨"item_1_Mil_k7", "Mil_k7", some "", some ""⟩ (by decide)

/-- Claim C10: every record list() returns has a nonempty name with no
leading or trailing whitespace that does not lowercase to `item`; its
quantity and category are present as likewise-trimmed strings; and
when the second or third cell of a kept row is absent the produced
quantity or category is the empty string. -/
theorem c10_list_fields :
    (∀ values item, item ∈ itemsOfValues values →
        item.name ≠ ""
      ∧ (∀ c, item.name.data.head? = some c → isJsSpace c = false)
      ∧ (∀ c, item.name.data.getLast? = some c → isJsSpace c = false)
      ∧ jsToLower item.name ≠ "item"
      ∧ (∃ q, item.quantity = some q
          ∧ (∀ c, q.data.head? = some c → isJsSpace c = false)
          ∧ (∀ c, q.data.getLast? = some c → isJsSpace c = false))
      ∧ (∃ cg, item.category = some cg
          ∧ (∀ c, cg.data.head? = some c → isJsSpace c = false)
          ∧ (∀ c, cg.data.getLast? = some c → isJsSpace c = false)))
  ∧ (∀ (i : Nat) (row : List String) (rest : List (List String)),
      skipRow row = false →
      jsToLower (jsTrim (row[0]?.getD "")) ≠ "item" →
      ∃ item, processRows i (row :: rest) = item :: processRows (i + 1) rest
        ∧ (row[1]? = none → item.quantity = some "")
        ∧ (row[2]? = none → item.category = some "")) := by
  constructor
  · intro values item h
    obtain ⟨vs, hm⟩ := mem_itemsOfValues_processRows values item h
    obtain ⟨x, y, z, hx, hy, hz, hne, hlow⟩ := mem_processRows_fields vs 1 item hm
    refine ⟨hne, ?_, ?_, hlow, ⟨jsTrim y, hy, ?_, ?_⟩, ⟨jsTrim z, hz, ?_, ?_⟩⟩
    · intro c hc
      rw [hx] at hc
      exact jsTrimList_head x.data c hc
    · intro c hc
      rw [hx] at hc
      exact jsTrimList_last x.data c hc
    · intro c hc
      exact jsTrimList_head y.data c hc
    · intro c hc
      exact jsTrimList_last y.data c hc
    · intro c hc
      exact jsTrimList_head z.data c hc
    · intro c hc
      exact jsTrimList_last z.data c hc
  · intro i row rest h1 h2
    refine ⟨⟨"item_" ++ natRepr i ++ "_" ++ jsTrim (row[0]?.getD ""),
      jsTrim (row[0]?.getD ""), some (jsTrim (row[1]?.getD "")),
      some (jsTrim (row[2]?.getD ""))⟩,
      processRows_keep i row rest h1 h2, ?_, ?_⟩
    · intro hq
      rw [hq]
      rfl
    · intro hq
      rw [hq]
      rfl

/-- Witness for C10: the record produced from a padded row has a
trimmed nonempty name distinct from the header label. -/
theorem c10_witness :
    ("Milk" : String) ≠ "" ∧ jsToLower "Milk" ≠ "item" := by
  have h := c10_list_fields.1 (some [["h"], [" Milk ", " 2 "]])
    ⟨"item_1_Milk", "Milk", some "2", some ""⟩ (by decide)
  exact ⟨h.1, h.2.2.2.1⟩

end Grocery
